import Mathlib

/-!
Verification of the Pharmacy Management API (FastAPI + MongoDB backend).

The repository consists of `src/main.py` (route handlers) and `src/schemas.py`
(pydantic models).  The generic persistence accessor `database.py` is imported
by `main.py` but is not among the provided sources; its operations
(`create_document`, `get_documents`, the `db` handle) are modelled from the
specification, each marked `Modelled from the spec:` in its doc comment.

Conventions of the embedding:
- Python `float` fields are modelled as `Rat`, `int` fields as `Int`.
- A MongoDB collection is modelled as the list of its documents in insertion
  order; `Optional` fields are `Option`.
- Request bodies before pydantic validation are `Raw*` structures whose fields
  are all `Option` (absent = `none`); pydantic validation is an explicit
  function `Raw* → Option *` applying exactly the declared `Field` constraints
  and defaults of `src/schemas.py`.
- MongoDB `$regex` with `"$options": "i"` on a metacharacter-free pattern
  performs a case-insensitive substring search; the embedding treats the
  supplied pattern as a literal string.
-/

namespace Pharmacy

/-! ### Case-insensitive substring search (MongoDB `$regex` with option `i`) -/

/-- Characters of a string, lower-cased (used for case-insensitive matching). -/
def lowerChars (s : String) : List Char := s.data.map Char.toLower

/-- Does the pattern occur at the start of the text? -/
def charsStartWith : List Char → List Char → Bool
  | [], _ => true
  | _ :: _, [] => false
  | a :: as, b :: bs => a == b && charsStartWith as bs

/-- Does the pattern occur anywhere in the text? -/
def charsContain (p : List Char) : List Char → Bool
  | [] => charsStartWith p []
  | b :: bs => charsStartWith p (b :: bs) || charsContain p bs

/-- Case-insensitive substring test: the semantics of the filter clause
`{"$regex": pat, "$options": "i"}` of `src/main.py` for a literal pattern. -/
def ciSubstr (pat text : String) : Bool :=
  charsContain (lowerChars pat) (lowerChars text)

/-- Python truthiness of an `Optional[str]` value: `if q:` holds exactly when
the value is present and is a non-empty string. -/
def strTruthy : Option String → Bool
  | none => false
  | some s => !(s == "")

/-- Python string slicing `s[:n]`, by code points. -/
def strTruncate (s : String) (n : Nat) : String := String.mk (s.data.take n)

/-! ### Persistence accessor (`database.py`, modelled from the spec) -/

/-- Modelled from the spec: `database.py` is not among the provided sources.
`create_document(collection_name, payload)` serializes the validated payload,
inserts it into the named collection, and returns the newly generated
identifier as a string (spec section 4.2).  The collection is the list of its
documents in insertion order and the fresh identifier is derived from its
current size. -/
def create_document (coll : List α) (payload : α) : List α × String :=
  (coll ++ [payload], toString coll.length)

/-- Modelled from the spec: `database.py` is not among the provided sources.
`get_documents(collection_name, filter, limit)` executes a filtered read
against the named collection and returns at most `limit` matching documents in
the store's natural (insertion) order, with no clamp applied to `limit`
(spec sections 4.2 and 4.3). -/
def get_documents (coll : List α) (filt : α → Bool) (limit : Nat) : List α :=
  (coll.filter filt).take limit

/-! ### Medicine (src/schemas.py lines 13-30) -/

/-- A validated `Medicine` document.  Defaults are the pydantic field defaults;
`expiry_date` is carried as its string form, its date parsing being orthogonal
to every claim. -/
structure Medicine where
  name : String
  generic_name : Option String := none
  category : Option String := none
  manufacturer : Option String := none
  sku : Option String := none
  batch_number : Option String := none
  expiry_date : Option String := none
  price : Rat
  cost_price : Option Rat := none
  stock : Int := 0
  reorder_level : Int := 10
  unit : String := "unit"
  taxable : Bool := true
  tax_rate : Rat := 0
  notes : Option String := none
deriving Repr, DecidableEq

/-- The enumerated `unit` values of `Medicine.unit` (the `Literal[...]` type). -/
def allowedUnits : List String :=
  ["tablet", "capsule", "bottle", "syrup", "ml", "mg", "g", "pack", "unit"]

/-- A `POST /api/medicines` request body before validation: every field as the
caller supplied it, absent fields `none`. -/
structure RawMedicine where
  name : Option String := none
  generic_name : Option String := none
  category : Option String := none
  manufacturer : Option String := none
  sku : Option String := none
  batch_number : Option String := none
  expiry_date : Option String := none
  price : Option Rat := none
  cost_price : Option Rat := none
  stock : Option Int := none
  reorder_level : Option Int := none
  unit : Option String := none
  taxable : Option Bool := none
  tax_rate : Option Rat := none
  notes : Option String := none
deriving Repr, DecidableEq

/-- Pydantic validation of a `Medicine` body: required fields must be present,
`price ≥ 0`, `cost_price ≥ 0` when present, `stock ≥ 0`, `reorder_level ≥ 0`,
`0 ≤ tax_rate ≤ 100`, and `unit` must be one of the enumerated values;
absent optional fields take their declared defaults. -/
def validateMedicine (r : RawMedicine) : Option Medicine :=
  match r.name, r.price with
  | some n, some p =>
    let stock := r.stock.getD 0
    let reorder := r.reorder_level.getD 10
    let unit := r.unit.getD "unit"
    let taxRate := r.tax_rate.getD 0
    let ok := decide (0 ≤ p) && r.cost_price.all (fun c => decide (0 ≤ c)) &&
      decide (0 ≤ stock) && decide (0 ≤ reorder) &&
      decide (0 ≤ taxRate) && decide (taxRate ≤ 100) &&
      allowedUnits.contains unit
    if ok then
      some { name := n, generic_name := r.generic_name, category := r.category,
             manufacturer := r.manufacturer, sku := r.sku,
             batch_number := r.batch_number, expiry_date := r.expiry_date,
             price := p, cost_price := r.cost_price, stock := stock,
             reorder_level := reorder, unit := unit,
             taxable := r.taxable.getD true, tax_rate := taxRate,
             notes := r.notes }
    else none
  | _, _ => none

/-- `POST /api/medicines` (src/main.py lines 69-72) together with the framework
validation boundary: an invalid body is rejected before the handler runs, so
`create_document` is never called and the collection is unchanged (`none` id);
on success the handler inserts and returns the generated id. -/
def create_medicine (coll : List Medicine) (body : RawMedicine) :
    List Medicine × Option String :=
  match validateMedicine body with
  | none => (coll, none)
  | some payload =>
    let r := create_document coll payload
    (r.1, some r.2)

/-- The filter object built by `list_medicines` (src/main.py lines 77-85): an
optional `$or` of three case-insensitive `$regex` clauses (the key is present
exactly when `q` is truthy) and an optional
`"$expr": {"$lte": ["$stock", "$reorder_level"]}` clause (present exactly when
`low_stock` is truthy). -/
structure MedicineFilter where
  qOr : Option String
  lowExpr : Bool
deriving Repr, DecidableEq

/-- Filter construction of `list_medicines`: `if q:` then the `$or` clause,
`if low_stock:` then the `$expr` clause. -/
def buildMedicineFilter (q : Option String) (low_stock : Bool) : MedicineFilter :=
  { qOr := if strTruthy q then q else none, lowExpr := low_stock }

/-- A `$regex` clause applied to an optional field: a missing (`null`) field
matches no pattern in MongoDB. -/
def optFieldMatch (pat : String) : Option String → Bool
  | none => false
  | some s => ciSubstr pat s

/-- MongoDB evaluation of the medicines filter on one document: the top-level
keys combine by AND, `$or` holds if any branch matches, and the `$expr` clause
holds iff `stock ≤ reorder_level` (a field-to-field comparison). -/
def medicineMatches (f : MedicineFilter) (m : Medicine) : Bool :=
  (match f.qOr with
   | none => true
   | some pat =>
       ciSubstr pat m.name || optFieldMatch pat m.generic_name ||
       optFieldMatch pat m.sku) &&
  (!f.lowExpr || decide (m.stock ≤ m.reorder_level))

/-- Query parameters of `GET /api/medicines` as sent by the client; `none`
means the parameter was omitted.  FastAPI substitutes the declared defaults
(`q=None`, `low_stock=False`, `limit=100`) for omitted parameters. -/
structure MedListQuery where
  q : Option String := none
  low_stock : Option Bool := none
  limit : Option Nat := none
deriving Repr, DecidableEq

/-- `GET /api/medicines` (src/main.py lines 75-86). -/
def list_medicines (coll : List Medicine) (req : MedListQuery) : List Medicine :=
  get_documents coll
    (medicineMatches (buildMedicineFilter req.q (req.low_stock.getD false)))
    (req.limit.getD 100)

/-- The q-predicate of the specification, written from its words: the query
term occurs as a case-insensitive substring of `name`, of `generic_name`, or
of `sku` (logical OR of the three fields). -/
def specMedicineQMatch (q : String) (m : Medicine) : Bool :=
  ciSubstr q m.name || optFieldMatch q m.generic_name || optFieldMatch q m.sku

/-! ### Prescription (src/schemas.py lines 33-50) -/

/-- A validated `PrescriptionItem`. -/
structure PrescriptionItem where
  medicine_id : String
  name : Option String := none
  quantity : Int
  unit_price : Rat
deriving Repr, DecidableEq

/-- A validated `Prescription` document. -/
structure Prescription where
  number : Option String := none
  patient_name : String
  patient_phone : Option String := none
  doctor_name : Option String := none
  items : List PrescriptionItem := []
  subtotal : Rat := 0
  tax : Rat := 0
  total : Rat := 0
  status : String := "pending"
  payment_method : Option String := none
deriving Repr, DecidableEq

/-- The enumerated `status` values of `Prescription.status`. -/
def prescriptionStatuses : List String := ["pending", "dispensed", "cancelled"]

/-- The enumerated `payment_method` values of `Prescription.payment_method`. -/
def paymentMethods : List String := ["cash", "card", "upi", "insurance"]

/-- A prescription item as the caller supplied it, before validation. -/
structure RawPrescriptionItem where
  medicine_id : Option String := none
  name : Option String := none
  quantity : Option Int := none
  unit_price : Option Rat := none
deriving Repr, DecidableEq

/-- A `POST /api/prescriptions` request body before validation. -/
structure RawPrescription where
  number : Option String := none
  patient_name : Option String := none
  patient_phone : Option String := none
  doctor_name : Option String := none
  items : Option (List RawPrescriptionItem) := none
  subtotal : Option Rat := none
  tax : Option Rat := none
  total : Option Rat := none
  status : Option String := none
  payment_method : Option String := none
deriving Repr, DecidableEq

/-- Pydantic validation of one item: `medicine_id`, `quantity` and
`unit_price` are required, `quantity ≥ 1` and `unit_price ≥ 0`. -/
def validatePrescriptionItem (r : RawPrescriptionItem) : Option PrescriptionItem :=
  match r.medicine_id, r.quantity, r.unit_price with
  | some mid, some qty, some up =>
    if decide (1 ≤ qty) && decide (0 ≤ up) then
      some { medicine_id := mid, name := r.name, quantity := qty, unit_price := up }
    else none
  | _, _, _ => none

/-- Pydantic validation of a `Prescription` body: `patient_name` required,
every item valid, `subtotal`, `tax`, `total` each `≥ 0` (default `0`, stored
verbatim — nothing is recomputed from the items), `status` and
`payment_method` drawn from their enumerations; `items` defaults to the empty
list when absent. -/
def validatePrescription (r : RawPrescription) : Option Prescription :=
  match r.patient_name with
  | none => none
  | some pname =>
    match (r.items.getD []).mapM validatePrescriptionItem with
    | none => none
    | some items =>
      let subtotal := r.subtotal.getD 0
      let tax := r.tax.getD 0
      let total := r.total.getD 0
      let status := r.status.getD "pending"
      let ok := decide (0 ≤ subtotal) && decide (0 ≤ tax) && decide (0 ≤ total) &&
        prescriptionStatuses.contains status &&
        r.payment_method.all (fun pm => paymentMethods.contains pm)
      if ok then
        some { number := r.number, patient_name := pname,
               patient_phone := r.patient_phone, doctor_name := r.doctor_name,
               items := items, subtotal := subtotal, tax := tax, total := total,
               status := status, payment_method := r.payment_method }
      else none

/-- `POST /api/prescriptions` (src/main.py lines 90-93) with the framework
validation boundary, as for medicines. -/
def create_prescription (coll : List Prescription) (body : RawPrescription) :
    List Prescription × Option String :=
  match validatePrescription body with
  | none => (coll, none)
  | some payload =>
    let r := create_document coll payload
    (r.1, some r.2)

/-- Query parameters of `GET /api/prescriptions`; `none` means omitted. -/
structure PrescListQuery where
  status : Option String := none
  limit : Option Nat := none
deriving Repr, DecidableEq

/-- Filter of `list_prescriptions`: `{"status": status} if status else {}`
(Python truthiness), matched by exact equality on the `status` field. -/
def buildPrescriptionFilter (status : Option String) : Option String :=
  if strTruthy status then status else none

/-- `GET /api/prescriptions` (src/main.py lines 96-99). -/
def list_prescriptions (coll : List Prescription) (req : PrescListQuery) :
    List Prescription :=
  get_documents coll
    (fun p => match buildPrescriptionFilter req.status with
              | none => true
              | some s => p.status == s)
    (req.limit.getD 100)

/-! ### Staff (src/schemas.py lines 53-58) -/

/-- A validated `Staff` document. -/
structure Staff where
  name : String
  email : String
  role : String := "Sales"
  phone : Option String := none
  is_active : Bool := true
deriving Repr, DecidableEq

/-- The filter object built by `list_staff` (src/main.py lines 111-115): an
equality clause on `role` when the parameter is truthy, an equality clause on
`is_active` when `active` is not `None`. -/
structure StaffFilter where
  roleEq : Option String
  activeEq : Option Bool
deriving Repr, DecidableEq

/-- Filter construction of `list_staff`: `if role:` (truthiness) and
`if active is not None:` (tri-state). -/
def buildStaffFilter (role : Option String) (active : Option Bool) : StaffFilter :=
  { roleEq := if strTruthy role then role else none, activeEq := active }

/-- MongoDB evaluation of the staff filter on one document: exact matches
combined by AND. -/
def staffMatches (f : StaffFilter) (s : Staff) : Bool :=
  (match f.roleEq with | none => true | some r => s.role == r) &&
  (match f.activeEq with | none => true | some b => s.is_active == b)

/-- Query parameters of `GET /api/staff`; `none` means omitted.  The declared
default of `active` is `None`, so an omitted `active` stays `none`. -/
structure StaffListQuery where
  role : Option String := none
  active : Option Bool := none
  limit : Option Nat := none
deriving Repr, DecidableEq

/-- `GET /api/staff` (src/main.py lines 109-116). -/
def list_staff (coll : List Staff) (req : StaffListQuery) : List Staff :=
  get_documents coll (staffMatches (buildStaffFilter req.role req.active))
    (req.limit.getD 100)

/-! ### Supplier (src/schemas.py lines 61-67) -/

/-- A validated `Supplier` document. -/
structure Supplier where
  name : String
  contact_name : Option String := none
  phone : Option String := none
  email : Option String := none
  address : Option String := none
  gst_number : Option String := none
deriving Repr, DecidableEq

/-- MongoDB evaluation of the suppliers filter: an optional `$or` of two
case-insensitive `$regex` clauses over `name` and `contact_name`. -/
def supplierMatches (qOr : Option String) (s : Supplier) : Bool :=
  match qOr with
  | none => true
  | some pat => ciSubstr pat s.name || optFieldMatch pat s.contact_name

/-- Query parameters of `GET /api/suppliers`; `none` means omitted. -/
structure SupplierListQuery where
  q : Option String := none
  limit : Option Nat := none
deriving Repr, DecidableEq

/-- `GET /api/suppliers` (src/main.py lines 126-134). -/
def list_suppliers (coll : List Supplier) (req : SupplierListQuery) : List Supplier :=
  get_documents coll
    (supplierMatches (if strTruthy req.q then req.q else none))
    (req.limit.getD 100)

/-! ### Diagnostics endpoint `GET /test` (src/main.py lines 44-65) -/

/-- Modelled from the spec: the `db` handle is created in `database.py`, which
is not among the provided sources.  The probe can find the handle unavailable
(`db is None`), find it present but have `list_collection_names()` raise with
message `e`, or succeed with the store's collection names. -/
inductive DbState
  | unavailable
  | failing (e : String)
  | connected (collections : List String)
deriving Repr, DecidableEq

/-- The response object assembled by `test_database`.  The two environment-echo
fields (`database_url`, `database_name`) only reflect environment variables and
bear on no claim, so they are not modelled. -/
structure TestResponse where
  backend : String
  database : String
  connection_status : String
  collections : List String
deriving Repr, DecidableEq

/-- `GET /test` (src/main.py lines 44-65): a total function of the probe state;
every failure during the probe is caught and reported inside the response,
with the exception text truncated to its first 80 characters. -/
def test_database (st : DbState) : TestResponse :=
  let base : TestResponse :=
    { backend := "✅ Running", database := "❌ Not Available",
      connection_status := "Not Connected", collections := [] }
  match st with
  | .unavailable => base
  | .failing e =>
      { base with connection_status := "Connected",
                  database := "⚠️ Connected but Error: " ++ strTruncate e 80 }
  | .connected names =>
      { base with connection_status := "Connected",
                  database := "✅ Connected & Working",
                  collections := names.take 10 }

/-! ### Identifier helper `to_object_id` (src/main.py lines 27-31) -/

/-- A hexadecimal digit. -/
def isHexChar (c : Char) : Bool :=
  c.isDigit || ('a' ≤ c && c ≤ 'f') || ('A' ≤ c && c ≤ 'F')

/-- Validity of a string as a BSON ObjectId: exactly 24 hexadecimal
characters (the bson library's acceptance condition for strings). -/
def isValidObjectIdStr (s : String) : Bool :=
  s.data.length == 24 && s.data.all isHexChar

/-- The store's native identifier type (BSON ObjectId), carried as its
validated 24-hex-character string. -/
structure ObjectId where
  hex : String
deriving Repr, DecidableEq

/-- The `HTTPException` raised by the identifier helper. -/
structure HTTPError where
  status_code : Nat
  detail : String
deriving Repr, DecidableEq

/-- `to_object_id` (src/main.py lines 27-31): constructing `ObjectId(id_str)`
succeeds exactly on well-formed identifier strings; any failure is turned into
`HTTPException(status_code=400, detail="Invalid id format")`. -/
def to_object_id (id_str : String) : Except HTTPError ObjectId :=
  if isValidObjectIdStr id_str then Except.ok { hex := id_str }
  else Except.error { status_code := 400, detail := "Invalid id format" }

/-! ### Concrete example inputs used by witnesses -/

/-- A minimal valid `POST /api/medicines` body. -/
def rawAspirin : RawMedicine := { name := some "Aspirin", price := some 2 }

/-- The document produced by validating `rawAspirin` (defaults filled in). -/
def medAspirin : Medicine := { name := "Aspirin", price := 2 }

/-- A `POST /api/medicines` body with a negative price. -/
def rawBadPrice : RawMedicine := { name := some "Aspirin", price := some (-1) }

/-- A prescription item with quantity 0. -/
def itemQtyZero : RawPrescriptionItem :=
  { medicine_id := some "m1", quantity := some 0, unit_price := some 1 }

/-- A `POST /api/prescriptions` body containing an item of quantity 0. -/
def rawQtyZero : RawPrescription :=
  { patient_name := some "Pat", items := some [itemQtyZero] }

/-- A valid `POST /api/prescriptions` body with caller-supplied totals. -/
def rawTotalsPrescription : RawPrescription :=
  { patient_name := some "Pat", subtotal := some 5, tax := some 1, total := some 6 }

/-- The document produced by validating `rawTotalsPrescription`. -/
def prescTotals : Prescription :=
  { patient_name := "Pat", subtotal := 5, tax := 1, total := 6 }

/-! ### Helper lemmas -/

theorem charsContain_nil (l : List Char) : charsContain [] l = true := by
  cases l <;> simp [charsContain, charsStartWith]

theorem ciSubstr_empty (s : String) : ciSubstr "" s = true := by
  have h : lowerChars "" = [] := rfl
  unfold ciSubstr
  rw [h, charsContain_nil]

theorem medicineMatches_none (ls : Bool) (m : Medicine) :
    medicineMatches (buildMedicineFilter none ls) m =
      (!ls || decide (m.stock ≤ m.reorder_level)) := by
  simp [medicineMatches, buildMedicineFilter, strTruthy]

theorem medicineMatches_some (q : String) (ls : Bool) (m : Medicine) :
    medicineMatches (buildMedicineFilter (some q) ls) m =
      (specMedicineQMatch q m && (!ls || decide (m.stock ≤ m.reorder_level))) := by
  by_cases hq : q = ""
  · subst hq
    simp [medicineMatches, buildMedicineFilter, strTruthy, specMedicineQMatch,
      ciSubstr_empty]
  · have ht : strTruthy (some q) = true := by
      simp [strTruthy, hq]
    simp [medicineMatches, buildMedicineFilter, ht, specMedicineQMatch]

theorem get_documents_trivial (coll : List α) (f : α → Bool)
    (h : ∀ x, f x = true) (n : Nat) : get_documents coll f n = coll.take n := by
  unfold get_documents
  rw [List.filter_congr (fun x _ => h x), List.filter_true]

theorem validateMedicine_constraints {r : RawMedicine} {m : Medicine}
    (h : validateMedicine r = some m) :
    0 ≤ m.price ∧ (∀ c ∈ m.cost_price, 0 ≤ c) ∧ 0 ≤ m.stock ∧
      0 ≤ m.reorder_level ∧ 0 ≤ m.tax_rate ∧ m.tax_rate ≤ 100 ∧
      m.unit ∈ allowedUnits ∧
      r.price = some m.price ∧ m.stock = r.stock.getD 0 ∧
      m.tax_rate = r.tax_rate.getD 0 ∧ m.unit = r.unit.getD "unit" ∧
      m.cost_price = r.cost_price := by
  unfold validateMedicine at h
  cases hn : r.name with
  | none =>
    rw [hn] at h
    simp at h
  | some n =>
    cases hp : r.price with
    | none =>
      rw [hn, hp] at h
      simp at h
    | some p =>
      rw [hn, hp] at h
      simp at h
      obtain ⟨⟨⟨⟨⟨⟨⟨h1, h2⟩, h3⟩, h4⟩, h5⟩, h6⟩, h7⟩, heq⟩ := h
      subst heq
      have hcost : ∀ c ∈ r.cost_price, (0 : Rat) ≤ c := by
        cases hcp : r.cost_price with
        | none => simp
        | some c =>
          rw [hcp] at h2
          simpa using h2
      exact ⟨h1, hcost, h3, h4, h5, h6, h7, rfl, rfl, rfl, rfl, rfl⟩

theorem mapM_none_of_mem {f : α → Option β} {l : List α} {x : α}
    (hx : x ∈ l) (hf : f x = none) : l.mapM f = none := by
  induction l with
  | nil => cases hx
  | cons a t ih =>
    rw [List.mapM_cons]
    rcases List.mem_cons.mp hx with h | h
    · subst h
      rw [hf]
      rfl
    · have ht := ih h
      cases hfa : f a with
      | none => rfl
      | some b =>
        show t.mapM f >>= (fun bs => pure (b :: bs)) = none
        rw [ht]
        rfl

theorem validatePrescription_verbatim {r : RawPrescription} {p : Prescription}
    (h : validatePrescription r = some p) :
    p.subtotal = r.subtotal.getD 0 ∧ p.tax = r.tax.getD 0 ∧
      p.total = r.total.getD 0 := by
  unfold validatePrescription at h
  cases hn : r.patient_name with
  | none =>
    rw [hn] at h
    simp at h
  | some pn =>
    rw [hn] at h
    cases hitems : (r.items.getD []).mapM validatePrescriptionItem with
    | none =>
      rw [hitems] at h
      simp at h
    | some items =>
      rw [hitems] at h
      simp at h
      obtain ⟨hok, heq⟩ := h
      subst heq
      exact ⟨rfl, rfl, rfl⟩

/-! ### Claim theorems -/

/-- C1: `GET /api/medicines?low_stock=true` returns exactly the stored
medicines whose `stock` is at most their own `reorder_level` (field-to-field
comparison, boundary `stock = reorder_level` included), and when `q` is also
supplied the low-stock restriction is combined with the q restriction by
logical AND. -/
theorem c1_low_stock_exact :
    (∀ (coll : List Medicine) (lim : Option Nat),
      list_medicines coll { low_stock := some true, limit := lim } =
        (coll.filter (fun m => decide (m.stock ≤ m.reorder_level))).take
          (lim.getD 100)) ∧
    (∀ (coll : List Medicine) (q : String) (lim : Option Nat),
      list_medicines coll { q := some q, low_stock := some true, limit := lim } =
        (coll.filter (fun m => specMedicineQMatch q m &&
            decide (m.stock ≤ m.reorder_level))).take (lim.getD 100)) ∧
    medicineMatches (buildMedicineFilter none true)
      { name := "amoxicillin", price := 5, stock := 7, reorder_level := 7 } = true := by
  refine ⟨fun coll lim => ?_, fun coll q lim => ?_, by decide⟩
  · have h : ∀ m ∈ coll, medicineMatches (buildMedicineFilter none true) m
        = decide (m.stock ≤ m.reorder_level) := by
      intro m _
      rw [medicineMatches_none]
      simp
    show get_documents coll (medicineMatches (buildMedicineFilter none true))
      (lim.getD 100) = _
    unfold get_documents
    rw [List.filter_congr h]
  · have h : ∀ m ∈ coll, medicineMatches (buildMedicineFilter (some q) true) m
        = (specMedicineQMatch q m && decide (m.stock ≤ m.reorder_level)) := by
      intro m _
      rw [medicineMatches_some]
      simp
    show get_documents coll (medicineMatches (buildMedicineFilter (some q) true))
      (lim.getD 100) = _
    unfold get_documents
    rw [List.filter_congr h]

/-- C2: `GET /api/medicines?q=...` returns a stored medicine iff the query
term occurs as a case-insensitive substring of its `name`, its `generic_name`,
or its `sku` (logical OR), including when the term appears only in `sku` (the
concrete conjunct exhibits a medicine matched through `sku` alone). -/
theorem c2_q_ci_substring_or :
    (∀ (coll : List Medicine) (q : String) (lim : Option Nat),
      list_medicines coll { q := some q, limit := lim } =
        (coll.filter (specMedicineQMatch q)).take (lim.getD 100)) ∧
    (list_medicines [{ name := "Ibuprofen", price := 1, sku := some "AMO-500" }]
        { q := some "amo" } =
      [{ name := "Ibuprofen", price := 1, sku := some "AMO-500" }] ∧
     ciSubstr "amo" "Ibuprofen" = false ∧
     optFieldMatch "amo" (some "AMO-500") = true) := by
  refine ⟨fun coll q lim => ?_, by decide, by decide, by decide⟩
  have h : ∀ m ∈ coll, medicineMatches (buildMedicineFilter (some q) false) m
      = specMedicineQMatch q m := by
    intro m _
    rw [medicineMatches_some]
    simp
  show get_documents coll (medicineMatches (buildMedicineFilter (some q) false))
    (lim.getD 100) = _
  unfold get_documents
  rw [List.filter_congr h]

/-- C9: `low_stock=false` builds exactly the same filter, and returns exactly
the same result, as omitting `low_stock`; only `low_stock=true` adds the
`$expr` restriction, and `false` never adds a complementary one. -/
theorem c9_low_stock_false_is_default :
    ∀ (coll : List Medicine) (q : Option String) (lim : Option Nat),
      buildMedicineFilter q ((some false).getD false) =
        buildMedicineFilter q ((none : Option Bool).getD false) ∧
      list_medicines coll { q := q, low_stock := some false, limit := lim } =
        list_medicines coll { q := q, low_stock := none, limit := lim } ∧
      (buildMedicineFilter q false).lowExpr = false ∧
      (buildMedicineFilter q true).lowExpr = true := by
  intro coll q lim
  exact ⟨rfl, rfl, rfl, rfl⟩

theorem medicineMatches_trivial (m : Medicine) :
    medicineMatches (buildMedicineFilter none false) m = true := by
  rw [medicineMatches_none]
  simp

theorem staffMatches_trivial (s : Staff) :
    staffMatches (buildStaffFilter none none) s = true := by
  simp [staffMatches, buildStaffFilter, strTruthy]

theorem staffMatches_active (b : Bool) (s : Staff) :
    staffMatches (buildStaffFilter none (some b)) s = (s.is_active == b) := by
  simp [staffMatches, buildStaffFilter, strTruthy]

theorem staffMatches_role_active (role : String) (h : role ≠ "") (b : Bool)
    (s : Staff) :
    staffMatches (buildStaffFilter (some role) (some b)) s =
      (s.role == role && s.is_active == b) := by
  have ht : strTruthy (some role) = true := by
    simp [strTruthy, h]
  simp [staffMatches, buildStaffFilter, ht]

/-- C4: on every list endpoint, an omitted `limit` defaults to 100, a supplied
`limit` is passed through to `get_documents` with no upper clamp (the result is
always the first `limit` matches), and `limit=1` against three matching
records returns exactly one document. -/
theorem c4_limit_default_and_passthrough :
    (∀ (coll : List Medicine) (q : Option String) (ls : Option Bool),
      list_medicines coll { q := q, low_stock := ls } =
        list_medicines coll { q := q, low_stock := ls, limit := some 100 }) ∧
    (∀ (coll : List Prescription) (st : Option String),
      list_prescriptions coll { status := st } =
        list_prescriptions coll { status := st, limit := some 100 }) ∧
    (∀ (coll : List Staff) (role : Option String) (active : Option Bool),
      list_staff coll { role := role, active := active } =
        list_staff coll { role := role, active := active, limit := some 100 }) ∧
    (∀ (coll : List Supplier) (q : Option String),
      list_suppliers coll { q := q } =
        list_suppliers coll { q := q, limit := some 100 }) ∧
    (∀ (coll : List Medicine) (n : Nat),
      list_medicines coll { limit := some n } = coll.take n) ∧
    (∀ (coll : List Prescription) (n : Nat),
      list_prescriptions coll { limit := some n } = coll.take n) ∧
    (∀ (coll : List Staff) (n : Nat),
      list_staff coll { limit := some n } = coll.take n) ∧
    (∀ (coll : List Supplier) (n : Nat),
      list_suppliers coll { limit := some n } = coll.take n) ∧
    (∀ (d1 d2 d3 : Medicine),
      (list_medicines [d1, d2, d3] { limit := some 1 }).length = 1) := by
  refine ⟨fun _ _ _ => rfl, fun _ _ => rfl, fun _ _ _ => rfl, fun _ _ => rfl,
    fun coll n => ?_, fun coll n => ?_, fun coll n => ?_, fun coll n => ?_,
    fun d1 d2 d3 => ?_⟩
  · exact get_documents_trivial coll _ medicineMatches_trivial n
  · exact get_documents_trivial coll _ (fun _ => rfl) n
  · exact get_documents_trivial coll _ staffMatches_trivial n
  · exact get_documents_trivial coll _ (fun _ => rfl) n
  · have h : list_medicines [d1, d2, d3] { limit := some 1 } = [d1] := by
      have := get_documents_trivial [d1, d2, d3]
        (medicineMatches (buildMedicineFilter none false)) medicineMatches_trivial 1
      simpa using this
    rw [h]
    rfl

/-- C5: the `active` parameter of `GET /api/staff` is tri-state —
`active=false` restricts to `is_active = false`, `active=true` to
`is_active = true`, and omitting it applies no `is_active` restriction — while
a non-empty `role` narrows independently, combined by logical AND. -/
theorem c5_staff_active_tristate :
    (∀ (coll : List Staff) (lim : Option Nat),
      list_staff coll { active := some false, limit := lim } =
        (coll.filter (fun s => s.is_active == false)).take (lim.getD 100)) ∧
    (∀ (coll : List Staff) (lim : Option Nat),
      list_staff coll { active := some true, limit := lim } =
        (coll.filter (fun s => s.is_active == true)).take (lim.getD 100)) ∧
    (∀ (coll : List Staff) (lim : Option Nat),
      list_staff coll { limit := lim } = coll.take (lim.getD 100)) ∧
    (∀ (coll : List Staff) (lim : Option Nat) (role : String), role ≠ "" →
      ∀ b : Bool,
      list_staff coll { role := some role, active := some b, limit := lim } =
        (coll.filter (fun s => s.role == role && s.is_active == b)).take
          (lim.getD 100)) := by
  refine ⟨fun coll lim => ?_, fun coll lim => ?_, fun coll lim => ?_,
    fun coll lim role hrole b => ?_⟩
  · show get_documents coll (staffMatches (buildStaffFilter none (some false)))
      (lim.getD 100) = _
    unfold get_documents
    rw [List.filter_congr (fun s _ => staffMatches_active false s)]
  · show get_documents coll (staffMatches (buildStaffFilter none (some true)))
      (lim.getD 100) = _
    unfold get_documents
    rw [List.filter_congr (fun s _ => staffMatches_active true s)]
  · exact get_documents_trivial coll _ staffMatches_trivial (lim.getD 100)
  · show get_documents coll (staffMatches (buildStaffFilter (some role) (some b)))
      (lim.getD 100) = _
    unfold get_documents
    rw [List.filter_congr (fun s _ => staffMatches_role_active role hrole b s)]

/-- Witness for C5: the role + active filter evaluated on a concrete
collection, the non-emptiness hypothesis discharged at `role = "Admin"`. -/
theorem c5_staff_active_tristate_witness :
    list_staff
      [{ name := "A", email := "a@x.test", role := "Admin", is_active := false },
       { name := "B", email := "b@x.test", role := "Sales", is_active := false }]
      { role := some "Admin", active := some false, limit := some 10 } =
      (([{ name := "A", email := "a@x.test", role := "Admin", is_active := false },
         { name := "B", email := "b@x.test", role := "Sales", is_active := false }] :
          List Staff).filter
        (fun s => s.role == "Admin" && s.is_active == false)).take
        ((some 10 : Option Nat).getD 100) :=
  c5_staff_active_tristate.2.2.2
    [{ name := "A", email := "a@x.test", role := "Admin", is_active := false },
     { name := "B", email := "b@x.test", role := "Sales", is_active := false }]
    (some 10) "Admin" (by decide) false

/-- C6: `GET /test` never raises — it is a total function of the probe state —
and every failure during the probe is reported inside the response: an
unavailable handle yields `"Not Connected"`, a failing probe yields an error
message whose exception text is truncated to at most 80 characters. -/
theorem c6_test_database_never_raises :
    (∀ st : DbState, (test_database st).backend = "✅ Running") ∧
    ((test_database DbState.unavailable).connection_status = "Not Connected" ∧
     (test_database DbState.unavailable).database = "❌ Not Available") ∧
    (∀ e : String,
      (test_database (DbState.failing e)).database =
        "⚠️ Connected but Error: " ++ strTruncate e 80 ∧
      (strTruncate e 80).length ≤ 80) := by
  refine ⟨fun st => ?_, ⟨rfl, rfl⟩, fun e => ⟨rfl, ?_⟩⟩
  · cases st <;> rfl
  · show (e.data.take 80).length ≤ 80
    rw [List.length_take]
    exact min_le_left _ _

/-- C8 counterexample: at the concrete malformed identifier `"zz"`, the
helper's client error carries the detail `"Invalid id format"`, which differs
from the message `"invalid id format"` stated by the claim. -/
theorem c8_message_counterexample :
    to_object_id "zz" =
      Except.error { status_code := 400, detail := "Invalid id format" } ∧
    "Invalid id format" ≠ "invalid id format" := by
  exact ⟨rfl, by decide⟩

/-- C8 (amended): for every input string, `to_object_id` either returns the
store's native identifier type — exactly when the string is a well-formed
24-hex-character identifier — or fails with a client error (HTTP 400) carrying
the fixed detail `"Invalid id format"`. -/
theorem c8_to_object_id_amended :
    ∀ s : String,
      (isValidObjectIdStr s = true → to_object_id s = Except.ok { hex := s }) ∧
      (isValidObjectIdStr s = false →
        to_object_id s =
          Except.error { status_code := 400, detail := "Invalid id format" }) := by
  intro s
  constructor
  · intro h
    simp [to_object_id, h]
  · intro h
    simp [to_object_id, h]

/-- Witness for C8 (amended): both branches evaluated at concrete inputs. -/
theorem c8_to_object_id_amended_witness :
    to_object_id "0123456789abcdef01234567" =
      Except.ok { hex := "0123456789abcdef01234567" } ∧
    to_object_id "not-an-objectid" =
      Except.error { status_code := 400, detail := "Invalid id format" } :=
  ⟨(c8_to_object_id_amended "0123456789abcdef01234567").1 (by decide),
   (c8_to_object_id_amended "not-an-objectid").2 (by decide)⟩

/-- C3: a `POST /api/medicines` body with a negative price, a negative stock,
a `tax_rate` over 100, or a `unit` outside the enumeration is rejected by
validation before `create_document` runs, so the collection is unchanged;
conversely every accepted `Medicine` satisfies `price ≥ 0`, `cost_price ≥ 0`
when present, `stock ≥ 0`, `reorder_level ≥ 0` and `0 ≤ tax_rate ≤ 100`. -/
theorem c3_validation_boundary :
    (∀ (coll : List Medicine) (r : RawMedicine),
      ((∃ p, r.price = some p ∧ p < 0) ∨ (∃ s, r.stock = some s ∧ s < 0) ∨
       (∃ t, r.tax_rate = some t ∧ 100 < t) ∨
       (∃ u, r.unit = some u ∧ u ∉ allowedUnits)) →
      create_medicine coll r = (coll, none)) ∧
    (∀ (r : RawMedicine) (m : Medicine), validateMedicine r = some m →
      0 ≤ m.price ∧ (∀ c ∈ m.cost_price, 0 ≤ c) ∧ 0 ≤ m.stock ∧
        0 ≤ m.reorder_level ∧ 0 ≤ m.tax_rate ∧ m.tax_rate ≤ 100) := by
  constructor
  · intro coll r hbad
    cases hv : validateMedicine r with
    | none => simp [create_medicine, hv]
    | some m =>
      exfalso
      obtain ⟨h1, hcost, h3, h4, h5, h6, hunit, hpr, hst, htr, hun, hcp⟩ :=
        validateMedicine_constraints hv
      rcases hbad with ⟨p, hp, hneg⟩ | ⟨s, hs, hneg⟩ | ⟨t, ht, hgt⟩ | ⟨u, hu, hnot⟩
      · rw [hp] at hpr
        have hpm : p = m.price := Option.some.inj hpr
        linarith
      · rw [hs] at hst
        simp at hst
        omega
      · rw [ht] at htr
        simp at htr
        linarith
      · rw [hu] at hun
        simp at hun
        exact hnot (hun ▸ hunit)
  · intro r m h
    obtain ⟨h1, h2, h3, h4, h5, h6, _⟩ := validateMedicine_constraints h
    exact ⟨h1, h2, h3, h4, h5, h6⟩

/-- Witness for C3: the negative-price rejection and the invariants of a
concrete accepted medicine, hypotheses discharged at explicit inputs. -/
theorem c3_validation_boundary_witness :
    create_medicine [] rawBadPrice = ([], none) ∧
    (0 ≤ medAspirin.price ∧ (∀ c ∈ medAspirin.cost_price, 0 ≤ c) ∧
     0 ≤ medAspirin.stock ∧ 0 ≤ medAspirin.reorder_level ∧
     0 ≤ medAspirin.tax_rate ∧ medAspirin.tax_rate ≤ 100) :=
  ⟨c3_validation_boundary.1 [] rawBadPrice (Or.inl ⟨-1, rfl, by norm_num⟩),
   c3_validation_boundary.2 rawAspirin medAspirin (by decide)⟩

/-- C7: a `POST /api/prescriptions` body containing an item of quantity 0 is
rejected by validation (quantity ≥ 1 on every item) and the collection is
unchanged; the caller-supplied `subtotal`, `tax` and `total` of every accepted
prescription are stored verbatim, with no recomputation from the items; and a
body whose single item has quantity 1 and unit price 0 is accepted. -/
theorem c7_prescription_quantity_and_totals :
    (∀ (coll : List Prescription) (r : RawPrescription),
      (∃ i ∈ r.items.getD [], i.quantity = some 0) →
      create_prescription coll r = (coll, none)) ∧
    (∀ (r : RawPrescription) (p : Prescription),
      validatePrescription r = some p →
      p.subtotal = r.subtotal.getD 0 ∧ p.tax = r.tax.getD 0 ∧
        p.total = r.total.getD 0) ∧
    (∀ (coll : List Prescription) (pname mid : String),
      create_prescription coll
        { patient_name := some pname,
          items := some [{ medicine_id := some mid, quantity := some 1,
                           unit_price := some 0 }] } =
        (coll ++ [{ patient_name := pname,
                    items := [{ medicine_id := mid, quantity := 1,
                                unit_price := 0 }] }],
         some (toString coll.length))) := by
  refine ⟨?_, fun r p h => validatePrescription_verbatim h,
    fun coll pname mid => rfl⟩
  rintro coll r ⟨i, hi, hq⟩
  have hv : validatePrescriptionItem i = none := by
    rcases hmid : i.medicine_id with _ | mid <;>
      rcases hup : i.unit_price with _ | up <;>
        simp [validatePrescriptionItem, hmid, hup, hq]
  have hmap : (r.items.getD []).mapM validatePrescriptionItem = none :=
    mapM_none_of_mem hi hv
  have hval : validatePrescription r = none := by
    unfold validatePrescription
    cases hn : r.patient_name with
    | none => rfl
    | some pn => rw [hmap]
  simp [create_prescription, hval]

/-- Witness for C7: rejection of a concrete quantity-0 body, and the verbatim
totals of a concrete accepted prescription. -/
theorem c7_prescription_quantity_and_totals_witness :
    create_prescription [] rawQtyZero = ([], none) ∧
    (prescTotals.subtotal = rawTotalsPrescription.subtotal.getD 0 ∧
     prescTotals.tax = rawTotalsPrescription.tax.getD 0 ∧
     prescTotals.total = rawTotalsPrescription.total.getD 0) :=
  ⟨c7_prescription_quantity_and_totals.1 [] rawQtyZero
     ⟨itemQtyZero, by decide, rfl⟩,
   c7_prescription_quantity_and_totals.2.1 rawTotalsPrescription prescTotals
     (by decide)⟩

/-- C10: the `items` field of a `POST /api/prescriptions` body may be omitted
or supplied as an empty sequence; in both cases the prescription is accepted
(given a `patient_name`) and stored with an empty items list. -/
theorem c10_items_default_empty :
    ∀ (coll : List Prescription) (pname : String),
      create_prescription coll { patient_name := some pname } =
        (coll ++ [{ patient_name := pname }], some (toString coll.length)) ∧
      create_prescription coll { patient_name := some pname, items := some [] } =
        (coll ++ [{ patient_name := pname }], some (toString coll.length)) := by
  intro coll pname
  exact ⟨rfl, rfl⟩

end Pharmacy
